import Mathlib

/-!
Shallow embedding of `food.py`, a Streamlit dashboard over a SQLite store of
food donations (tables `providers`, `receivers`, `food_listings`, `claims`).

Modelling conventions:
* SQL tables are Lean lists of records; a `Store` holds the four tables.
* Calendar dates and timestamps are modelled as `Int` (days since an epoch);
  `DATE('now')` becomes an explicit `today : Int` parameter.
* A pandas `DataFrame` is a column-name list plus row-major cell lists.
* The connection lifecycle of `fetch_data` / `execute_query` is modelled by a
  failure oracle for the steps that can raise, and an outcome record that
  tracks whether `conn.close()` was reached, mirroring the Python control
  flow where an exception skips every later statement of the function.
* Page branches of the Streamlit script become pure functions from the store
  (plus the widget inputs) to the rendered output.
-/

/-- A SQL / pandas cell value. -/
inductive Value where
  | str (s : String)
  | int (n : Int)
  | null
deriving DecidableEq, Repr

/-- A pandas DataFrame: column names in order, rows as cell lists. -/
structure DataFrame where
  cols : List String
  rows : List (List Value)
deriving DecidableEq, Repr

/-- `df.shape[1]`: the column count of a DataFrame. -/
def DataFrame.shapeCols (df : DataFrame) : Nat :=
  df.cols.length

/-- The data `st.bar_chart` receives: an index (category axis) plus the
remaining columns as series. -/
structure Chart where
  categories : List Value
  seriesCols : List String
  seriesRows : List (List Value)
deriving DecidableEq, Repr

/-- `df.set_index(df.columns[0])` as fed to `st.bar_chart`: the first column
becomes the category axis, the remaining columns the plotted values. -/
def DataFrame.setIndexFirst (df : DataFrame) : Chart :=
  { categories := df.rows.map (fun r => r.headD Value.null)
  , seriesCols := df.cols.drop 1
  , seriesRows := df.rows.map (fun r => r.drop 1) }

/-- A rendered output widget (only the two used by the SQL Analysis page). -/
inductive Widget where
  | table (df : DataFrame)
  | barChart (ch : Chart)
deriving DecidableEq, Repr

/-- Row of the `providers` table (`typeCol` models the SQL column `Type`,
which is not a legal Lean field name). -/
structure Provider where
  Provider_ID : Nat
  Name : String
  typeCol : String
  City : String
  Contact : String
deriving DecidableEq, Repr

/-- Row of the `receivers` table. -/
structure Receiver where
  Receiver_ID : Nat
  Name : String
  City : String
  Contact : String
deriving DecidableEq, Repr

/-- Row of the `food_listings` table. -/
structure FoodListing where
  Food_ID : Nat
  Food_Name : String
  Quantity : Nat
  Expiry_Date : Int
  Provider_ID : Nat
  Provider_Type : String
  Location : String
  Food_Type : String
  Meal_Type : String
deriving DecidableEq, Repr

/-- Row of the `claims` table. -/
structure Claim where
  Claim_ID : Nat
  Food_ID : Nat
  Receiver_ID : Nat
  Status : String
  Timestamp : Int
deriving DecidableEq, Repr

/-- The persisted store: the four tables of `food_wastage.db`. -/
structure Store where
  providers : List Provider
  receivers : List Receiver
  food_listings : List FoodListing
  claims : List Claim
deriving DecidableEq, Repr

/-- Error raised by the database layer. -/
inductive DbError where
  | readFailed
deriving DecidableEq, Repr

/-- Outcome of one `fetch_data` call: whether `conn.close()` ran, and the
returned DataFrame or the propagated exception. -/
structure FetchOutcome where
  connReleased : Bool
  result : Except DbError DataFrame
deriving Repr

/-- `fetch_data(query)`, with the outcome of `pd.read_sql` supplied as an
oracle (`some df` = the read returns `df`, `none` = the read raises).
The Python body is `conn = get_connection(); df = pd.read_sql(query, conn);
conn.close(); return df` — an exception in `read_sql` propagates and skips
`conn.close()`. -/
def fetch_data (read_sql : Option DataFrame) : FetchOutcome :=
  match read_sql with
  | some df => { connReleased := true, result := Except.ok df }
  | none => { connReleased := false, result := Except.error DbError.readFailed }

/-- The two statements of `execute_query` that can raise after the connection
is acquired: `cur.execute(...)` and `conn.commit()`. -/
inductive ExecFail where
  | execStep
  | commitStep
deriving DecidableEq, Repr

/-- Outcome of one `execute_query` call: the statement text and parameter
tuple handed to `cur.execute`, whether the commit completed, whether
`conn.close()` ran, and whether an exception propagated. -/
structure ExecOutcome where
  requestText : String
  requestParams : List Value
  committed : Bool
  connReleased : Bool
  raised : Bool
deriving DecidableEq, Repr

/-- `if params:` — Python truthiness: `None` and the empty tuple both take the
no-parameter branch of `execute_query`. -/
def boundParams (params : Option (List Value)) : List Value :=
  match params with
  | none => []
  | some ps => if ps.isEmpty then [] else ps

/-- `execute_query(query, params)`, with a failure oracle for the fallible
steps. The Python body is `conn = get_connection(); cur = conn.cursor();
cur.execute(query, params) / cur.execute(query); conn.commit(); conn.close()`
— an exception at any step propagates and skips every later statement, so
`conn.close()` runs only when both `cur.execute` and `conn.commit` succeed.
The statement text handed to the cursor is the `query` argument itself; the
parameters travel separately (bound, never interpolated into the text). -/
def execute_query (fail : Option ExecFail) (query : String)
    (params : Option (List Value)) : ExecOutcome :=
  match fail with
  | some ExecFail.execStep =>
      { requestText := query, requestParams := boundParams params
      , committed := false, connReleased := false, raised := true }
  | some ExecFail.commitStep =>
      { requestText := query, requestParams := boundParams params
      , committed := false, connReleased := false, raised := true }
  | none =>
      { requestText := query, requestParams := boundParams params
      , committed := true, connReleased := true, raised := false }

/-- `SELECT COUNT(*) AS c FROM t` over a table with `n` rows. -/
def countStarDF (n : Nat) : DataFrame :=
  { cols := ["c"], rows := [[Value.int (n : Int)]] }

/-- `df[name][i]`: look the column up by name, then index into it. -/
def DataFrame.cell (df : DataFrame) (name : String) (i : Nat) : Option Value :=
  match List.findIdx? (fun c => c == name) df.cols with
  | none => none
  | some j =>
    match df.rows[i]? with
    | none => none
    | some row => row[j]?

/-- The Dashboard page branch: three `fetch_data` count queries, each read via
`["c"][0]`. The page only reads, so the store passes through unchanged; the
returned triple is (providers metric, receivers metric, listings metric). -/
def dashboardRun (s : Store) :
    Store × (Option Value × Option Value × Option Value) :=
  ( s
  , ( (countStarDF s.providers.length).cell "c" 0
    , (countStarDF s.receivers.length).cell "c" 0
    , (countStarDF s.food_listings.length).cell "c" 0 ) )

/-- `if city != "All": df = df[df["Location"] == city]`. -/
def filterCity (city : String) (df : List FoodListing) : List FoodListing :=
  if city = "All" then df else df.filter (fun f => f.Location == city)

/-- `if food_type != "All": df = df[df["Food_Type"] == food_type]`. -/
def filterFoodType (food_type : String) (df : List FoodListing) :
    List FoodListing :=
  if food_type = "All" then df else df.filter (fun f => f.Food_Type == food_type)

/-- `if meal_type != "All": df = df[df["Meal_Type"] == meal_type]`. -/
def filterMealType (meal_type : String) (df : List FoodListing) :
    List FoodListing :=
  if meal_type = "All" then df else df.filter (fun f => f.Meal_Type == meal_type)

/-- The three filter steps of the View Food Listings page, in source order:
city, then food type, then meal type. -/
def applyFilters (city food_type meal_type : String)
    (df : List FoodListing) : List FoodListing :=
  filterMealType meal_type (filterFoodType food_type (filterCity city df))

/-- `sorted(column.unique())`: distinct values, ascending. -/
def uniqueSorted (vals : List String) : List String :=
  List.insertionSort (· ≤ ·) vals.dedup

/-- `["All"] + sorted(df["Location"].unique())`: the City selector options,
built from the unfiltered listing set. -/
def cityOptions (df : List FoodListing) : List String :=
  "All" :: uniqueSorted (df.map (fun f => f.Location))

/-- `["All"] + sorted(df["Food_Type"].unique())`: the Food Type selector. -/
def foodTypeOptions (df : List FoodListing) : List String :=
  "All" :: uniqueSorted (df.map (fun f => f.Food_Type))

/-- `["All"] + sorted(df["Meal_Type"].unique())`: the Meal Type selector. -/
def mealTypeOptions (df : List FoodListing) : List String :=
  "All" :: uniqueSorted (df.map (fun f => f.Meal_Type))

/-- Row shape of the Claims Management query: `c.Claim_ID, f.Food_Name,
r.Name AS Receiver_Name, c.Status, c.Timestamp`. -/
structure ClaimsRow where
  Claim_ID : Nat
  Food_Name : String
  Receiver_Name : String
  Status : String
  Timestamp : Int
deriving DecidableEq, Repr

/-- The Claims Management query: `FROM claims c JOIN food_listings f ON
c.Food_ID = f.Food_ID JOIN receivers r ON c.Receiver_ID = r.Receiver_ID`,
projected to the five selected columns. Inner-join semantics: a claim row
contributes one output row per matching (listing, receiver) pair, and none
when a reference dangles. -/
def claimsBrowser (s : Store) : List ClaimsRow :=
  s.claims.flatMap (fun c =>
    (s.food_listings.filter (fun f => c.Food_ID == f.Food_ID)).flatMap (fun f =>
      (s.receivers.filter (fun r => c.Receiver_ID == r.Receiver_ID)).map (fun r =>
        { Claim_ID := c.Claim_ID, Food_Name := f.Food_Name
        , Receiver_Name := r.Name, Status := c.Status
        , Timestamp := c.Timestamp })))

/-- Report Catalog entry 15, `"15. Expired food items"`:
`SELECT Food_Name, Expiry_Date, Location FROM food_listings WHERE
Expiry_Date < DATE('now')`, with `DATE('now')` passed in as `today`. -/
def query15 (s : Store) (today : Int) : List (String × Int × String) :=
  (s.food_listings.filter (fun f => f.Expiry_Date < today)).map
    (fun f => (f.Food_Name, f.Expiry_Date, f.Location))

/-- The render tail of the SQL Analysis page: `st.dataframe(result_df)` runs
unconditionally, then `if result_df.shape[1] == 2:
st.bar_chart(result_df.set_index(result_df.columns[0]))` adds a chart. -/
def sqlAnalysisWidgets (result_df : DataFrame) : List Widget :=
  [Widget.table result_df] ++
    (if result_df.shapeCols = 2
      then [Widget.barChart result_df.setIndexFirst]
      else [])

/-- The eight input fields of the Add New Food Listing form. -/
structure ListingForm where
  food_name : String
  quantity : Nat
  expiry : Int
  provider_id : Nat
  provider_type : String
  location : String
  food_type : String
  meal_type : String
deriving DecidableEq, Repr

/-- The statement text of the form's single insert, verbatim from the page. -/
def insertListingSQL : String :=
  "INSERT INTO food_listings (Food_Name, Quantity, Expiry_Date, Provider_ID, Provider_Type, Location, Food_Type, Meal_Type) VALUES (?, ?, ?, ?, ?, ?, ?, ?)"

/-- The positional parameter tuple of the insert, in form-field order. -/
def ListingForm.params (form : ListingForm) : List Value :=
  [ Value.str form.food_name, Value.int (form.quantity : Int)
  , Value.int form.expiry, Value.int (form.provider_id : Int)
  , Value.str form.provider_type, Value.str form.location
  , Value.str form.food_type, Value.str form.meal_type ]

/-- The `food_listings` row the store ends up with after the insert: the
eight submitted columns plus the store-assigned `Food_ID`. -/
def ListingForm.toRow (form : ListingForm) (newId : Nat) : FoodListing :=
  { Food_ID := newId, Food_Name := form.food_name
  , Quantity := form.quantity, Expiry_Date := form.expiry
  , Provider_ID := form.provider_id, Provider_Type := form.provider_type
  , Location := form.location, Food_Type := form.food_type
  , Meal_Type := form.meal_type }

/-- Outcome of one submission of the Add New Food Listing form. -/
structure SubmitResult where
  store : Store
  requests : List (String × List Value)
  confirmation : Bool
deriving DecidableEq, Repr

/-- The `if submit:` branch of the Add New Food Listing page: one
`execute_query` call with the fixed insert text and the eight field values as
positional parameters, the store gains the row (identity `newId` assigned by
the store), and `st.success(...)` shows a confirmation. -/
def addListingSubmit (s : Store) (form : ListingForm) (newId : Nat) :
    SubmitResult :=
  { store := { s with
      food_listings := s.food_listings ++ [form.toRow newId] }
  , requests := [(insertListingSQL, form.params)]
  , confirmation := true }

/-- `Claim status distribution` sample result: a concrete two-column
DataFrame of the shape report 11 produces. -/
def statusCountDF : DataFrame :=
  { cols := ["Status", "Count"]
  , rows := [ [Value.str "Pending", Value.int 3]
            , [Value.str "Completed", Value.int 5] ] }

/-- Recognise the chart widgets of a rendered widget list. -/
def Widget.isChart : Widget → Bool
  | Widget.barChart _ => true
  | Widget.table _ => false

/-- Sample listing: expired relative to day 20000. -/
def sampleListing1 : FoodListing :=
  { Food_ID := 1, Food_Name := "Bread", Quantity := 4, Expiry_Date := 19990
  , Provider_ID := 1, Provider_Type := "Bakery", Location := "Pune"
  , Food_Type := "Vegetarian", Meal_Type := "Breakfast" }

/-- Sample listing: not yet expired relative to day 20000. -/
def sampleListing2 : FoodListing :=
  { Food_ID := 2, Food_Name := "Rice", Quantity := 7, Expiry_Date := 20010
  , Provider_ID := 2, Provider_Type := "Cafe", Location := "Delhi"
  , Food_Type := "Vegan", Meal_Type := "Lunch" }

/-- Sample store with two listings. -/
def sampleStore : Store :=
  { providers := [{ Provider_ID := 1, Name := "P1", typeCol := "Bakery"
                  , City := "Pune", Contact := "111" }]
  , receivers := [{ Receiver_ID := 1, Name := "R1", City := "Pune"
                  , Contact := "222" }]
  , food_listings := [sampleListing1, sampleListing2]
  , claims := [{ Claim_ID := 1, Food_ID := 1, Receiver_ID := 1
               , Status := "Pending", Timestamp := 19995 }] }

/-- Sample submission of the Add New Food Listing form (the end-to-end
example of the spec). -/
def sampleForm : ListingForm :=
  { food_name := "Bread Loaves", quantity := 10, expiry := 20001
  , provider_id := 1, provider_type := "Bakery", location := "Springfield"
  , food_type := "Vegetarian", meal_type := "Breakfast" }

theorem filter_swap {α : Type} (p q : α → Bool) (l : List α) :
    (l.filter p).filter q = (l.filter q).filter p := by
  simp only [List.filter_filter]
  exact List.filter_congr (fun a _ => by rw [Bool.and_comm])

theorem filterCity_eq_filter (c : String) (l : List FoodListing) :
    filterCity c l = l.filter (fun f => c == "All" || f.Location == c) := by
  unfold filterCity
  by_cases h : c = "All"
  · subst h
    simp
  · rw [if_neg h]
    refine (List.filter_congr fun a _ => ?_).symm
    simp [h]

theorem filterFoodType_eq_filter (t : String) (l : List FoodListing) :
    filterFoodType t l = l.filter (fun f => t == "All" || f.Food_Type == t) := by
  unfold filterFoodType
  by_cases h : t = "All"
  · subst h
    simp
  · rw [if_neg h]
    refine (List.filter_congr fun a _ => ?_).symm
    simp [h]

theorem filterMealType_eq_filter (m : String) (l : List FoodListing) :
    filterMealType m l = l.filter (fun f => m == "All" || f.Meal_Type == m) := by
  unfold filterMealType
  by_cases h : m = "All"
  · subst h
    simp
  · rw [if_neg h]
    refine (List.filter_congr fun a _ => ?_).symm
    simp [h]

theorem filterCity_foodType_comm (c t : String) (l : List FoodListing) :
    filterCity c (filterFoodType t l) = filterFoodType t (filterCity c l) := by
  simp only [filterCity_eq_filter, filterFoodType_eq_filter]
  exact filter_swap _ _ l

theorem filterCity_mealType_comm (c m : String) (l : List FoodListing) :
    filterCity c (filterMealType m l) = filterMealType m (filterCity c l) := by
  simp only [filterCity_eq_filter, filterMealType_eq_filter]
  exact filter_swap _ _ l

theorem filterFoodType_mealType_comm (t m : String) (l : List FoodListing) :
    filterFoodType t (filterMealType m l) = filterMealType m (filterFoodType t l) := by
  simp only [filterFoodType_eq_filter, filterMealType_eq_filter]
  exact filter_swap _ _ l

theorem mem_filterCity (c : String) (l : List FoodListing) (x : FoodListing) :
    x ∈ filterCity c l ↔ x ∈ l ∧ (c = "All" ∨ x.Location = c) := by
  rw [filterCity_eq_filter, List.mem_filter]
  simp

theorem mem_filterFoodType (t : String) (l : List FoodListing) (x : FoodListing) :
    x ∈ filterFoodType t l ↔ x ∈ l ∧ (t = "All" ∨ x.Food_Type = t) := by
  rw [filterFoodType_eq_filter, List.mem_filter]
  simp

theorem mem_filterMealType (m : String) (l : List FoodListing) (x : FoodListing) :
    x ∈ filterMealType m l ↔ x ∈ l ∧ (m = "All" ∨ x.Meal_Type = m) := by
  rw [filterMealType_eq_filter, List.mem_filter]
  simp

theorem mem_uniqueSorted (vals : List String) (x : String) :
    x ∈ uniqueSorted vals ↔ x ∈ vals := by
  unfold uniqueSorted
  rw [(List.perm_insertionSort _ _).mem_iff, List.mem_dedup]

theorem uniqueSorted_nodup (vals : List String) : (uniqueSorted vals).Nodup :=
  (List.perm_insertionSort _ _).symm.nodup (List.nodup_dedup vals)

theorem uniqueSorted_sorted (vals : List String) :
    List.Sorted (fun a b => a < b) (uniqueSorted vals) :=
  List.Sorted.lt_of_le (List.sorted_insertionSort _ _) (uniqueSorted_nodup vals)

/-- C1 counterexample: the SQL Analysis page does not choose between chart
and table by column count — for the two-column result `statusCountDF` it
renders the generic table as well as the bar chart, so a two-column result
does not select bar-chart rendering instead of table rendering. -/
theorem sqlAnalysis_two_cols_also_renders_table :
    statusCountDF.shapeCols = 2
  ∧ Widget.table statusCountDF ∈ sqlAnalysisWidgets statusCountDF
  ∧ Widget.barChart statusCountDF.setIndexFirst ∈ sqlAnalysisWidgets statusCountDF := by
  refine ⟨rfl, ?_, ?_⟩ <;> simp [sqlAnalysisWidgets, statusCountDF, DataFrame.shapeCols]

/-- C1 (amended): the SQL Analysis page renders the generic table for every
result; in addition, exactly when the result has two columns it renders one
bar chart, built by `set_index` on the first column (first column as category
axis, remaining column as measured value); the chart decision depends only on
the column count. -/
theorem sqlAnalysis_presentation (df : DataFrame) :
    Widget.table df ∈ sqlAnalysisWidgets df
  ∧ ((sqlAnalysisWidgets df).filter Widget.isChart
      = if df.shapeCols = 2 then [Widget.barChart df.setIndexFirst] else [])
  ∧ (sqlAnalysisWidgets df).filter (fun w => !w.isChart) = [Widget.table df] := by
  unfold sqlAnalysisWidgets
  by_cases h : df.shapeCols = 2 <;> simp [h, Widget.isChart]

/-- C2 counterexample: a failure of the `cur.execute` step — after the
connection was acquired, before commit — also leaves the connection
unreleased, so "unreleased only if the commit step itself throws" is false. -/
theorem execute_query_exec_failure_leaks :
    (execute_query (some ExecFail.execStep) insertListingSQL
        (some sampleForm.params)).connReleased = false
  ∧ ExecFail.execStep ≠ ExecFail.commitStep :=
  ⟨rfl, by decide⟩

/-- C2 (amended): `execute_query` binds positional parameters (the statement
text reaches the cursor verbatim, the parameters travel separately), commits
and then releases the connection on the success path; a failure after
connection acquisition leaves the connection unreleased whether the execute
step or the commit step throws. -/
theorem execute_query_contract (query : String) (params : Option (List Value))
    (fail : Option ExecFail) :
    (execute_query fail query params).requestText = query
  ∧ (execute_query fail query params).requestParams = boundParams params
  ∧ (execute_query none query params).committed = true
  ∧ (execute_query none query params).connReleased = true
  ∧ (execute_query none query params).raised = false
  ∧ (execute_query (some ExecFail.execStep) query params).connReleased = false
  ∧ (execute_query (some ExecFail.commitStep) query params).connReleased = false := by
  cases fail with
  | none => exact ⟨rfl, rfl, rfl, rfl, rfl, rfl, rfl⟩
  | some st => cases st <;> exact ⟨rfl, rfl, rfl, rfl, rfl, rfl, rfl⟩

/-- C3: report 15 returns exactly the listings whose expiry date is strictly
before the evaluation date — a listing of the store appears in the result if
and only if its expiry date is before `today`; listings expiring today or
later never appear. -/
theorem query15_expired_mem_iff (s : Store) (today : Int) (f : FoodListing)
    (hf : f ∈ s.food_listings) :
    (f.Food_Name, f.Expiry_Date, f.Location) ∈ query15 s today
      ↔ f.Expiry_Date < today := by
  unfold query15
  constructor
  · intro hmem
    obtain ⟨g, hg, hproj⟩ := List.mem_map.mp hmem
    obtain ⟨-, hlt⟩ := List.mem_filter.mp hg
    have hdate : g.Expiry_Date = f.Expiry_Date :=
      congrArg (fun p => p.2.1) hproj
    rw [← hdate]
    exact of_decide_eq_true hlt
  · intro hlt
    exact List.mem_map.mpr ⟨f, List.mem_filter.mpr ⟨hf, decide_eq_true hlt⟩, rfl⟩

/-- C3 witness: in the sample store, the listing expired at day 19990 is in
the store and report 15 evaluated at day 20000 contains it exactly because
19990 < 20000. -/
theorem query15_expired_mem_iff_witness :
    sampleListing1 ∈ sampleStore.food_listings
  ∧ ((sampleListing1.Food_Name, sampleListing1.Expiry_Date, sampleListing1.Location)
        ∈ query15 sampleStore 20000 ↔ sampleListing1.Expiry_Date < 20000) :=
  ⟨by decide, query15_expired_mem_iff sampleStore 20000 sampleListing1 (by decide)⟩

/-- C4: Listing Browser filtering is conjunctive and commutative — the three
equality filters (with "All" meaning no filter) applied in any of the six
orders give the same row list as the source order (city, food type, meal
type), and membership in the combined result is exactly membership in each
single-filter result. -/
theorem viewListings_filters_conjunctive_commutative
    (city food_type meal_type : String) (df : List FoodListing) :
    (filterMealType meal_type (filterFoodType food_type (filterCity city df))
        = applyFilters city food_type meal_type df
      ∧ filterFoodType food_type (filterMealType meal_type (filterCity city df))
        = applyFilters city food_type meal_type df
      ∧ filterMealType meal_type (filterCity city (filterFoodType food_type df))
        = applyFilters city food_type meal_type df
      ∧ filterCity city (filterMealType meal_type (filterFoodType food_type df))
        = applyFilters city food_type meal_type df
      ∧ filterFoodType food_type (filterCity city (filterMealType meal_type df))
        = applyFilters city food_type meal_type df
      ∧ filterCity city (filterFoodType food_type (filterMealType meal_type df))
        = applyFilters city food_type meal_type df)
  ∧ ∀ x, x ∈ applyFilters city food_type meal_type df
      ↔ (x ∈ filterCity city df ∧ x ∈ filterFoodType food_type df
          ∧ x ∈ filterMealType meal_type df) := by
  unfold applyFilters
  refine ⟨⟨rfl, ?_, ?_, ?_, ?_, ?_⟩, ?_⟩
  · rw [filterFoodType_mealType_comm]
  · rw [filterCity_foodType_comm]
  · rw [filterCity_mealType_comm, filterCity_foodType_comm]
  · rw [filterCity_mealType_comm, filterFoodType_mealType_comm]
  · rw [filterCity_foodType_comm, filterCity_mealType_comm, filterFoodType_mealType_comm]
  · intro x
    simp only [mem_filterCity, mem_filterFoodType, mem_filterMealType]
    tauto

/-- C5: the Claims Management table is exactly the inner three-way join of
claims, listings and receivers on `Food_ID` and `Receiver_ID`, projected to
claim id, food name, receiver name, status and timestamp; a claim whose
listing or receiver reference resolves to no stored row contributes no output
row (and the query is a total function — no error). -/
theorem claimsBrowser_inner_join (s : Store) (row : ClaimsRow) :
    row ∈ claimsBrowser s ↔
      ∃ c ∈ s.claims, ∃ f ∈ s.food_listings, ∃ r ∈ s.receivers,
        c.Food_ID = f.Food_ID ∧ c.Receiver_ID = r.Receiver_ID ∧
        row = { Claim_ID := c.Claim_ID, Food_Name := f.Food_Name
              , Receiver_Name := r.Name, Status := c.Status
              , Timestamp := c.Timestamp } := by
  simp only [claimsBrowser, List.mem_flatMap, List.mem_map, List.mem_filter,
    beq_iff_eq]
  constructor
  · rintro ⟨c, hc, f, ⟨hf, hcf⟩, r, ⟨hr, hcr⟩, hrow⟩
    exact ⟨c, hc, f, hf, r, hr, hcf, hcr, hrow.symm⟩
  · rintro ⟨c, hc, f, hf, r, hr, hcf, hcr, hrow⟩
    exact ⟨c, hc, f, ⟨hf, hcf⟩, r, ⟨hr, hcr⟩, hrow.symm⟩

/-- C6: each Dashboard count metric equals the true row count of its table,
the page leaves the store unchanged (read-only), and an empty table yields
the scalar 0 rather than an error. -/
theorem dashboard_counts_correct (s : Store) :
    (dashboardRun s).1 = s
  ∧ (dashboardRun s).2.1 = some (Value.int (s.providers.length : Int))
  ∧ (dashboardRun s).2.2.1 = some (Value.int (s.receivers.length : Int))
  ∧ (dashboardRun s).2.2.2 = some (Value.int (s.food_listings.length : Int))
  ∧ (dashboardRun (Store.mk [] [] [] [])).2.1 = some (Value.int 0) :=
  ⟨rfl, rfl, rfl, rfl, rfl⟩

/-- C7: a submission of the Add New Food Listing form that satisfies the
client-side constraints issues exactly one parameterized insert (fixed
statement text, the eight field values as positional parameters), the store
gains exactly one new `food_listings` row whose non-identity columns equal
the eight submitted values with the store-assigned identity, the other
tables are untouched, and a confirmation is shown. -/
theorem addListing_one_insert (s : Store) (form : ListingForm) (newId : Nat)
    (today : Int) (hq : 1 ≤ form.quantity) (he : today ≤ form.expiry) :
    (addListingSubmit s form newId).requests = [(insertListingSQL, form.params)]
  ∧ (addListingSubmit s form newId).confirmation = true
  ∧ (addListingSubmit s form newId).store.food_listings
      = s.food_listings ++ [form.toRow newId]
  ∧ (addListingSubmit s form newId).store.food_listings.length
      = s.food_listings.length + 1
  ∧ (form.toRow newId).Food_ID = newId
  ∧ (form.toRow newId).Food_Name = form.food_name
  ∧ (form.toRow newId).Quantity = form.quantity
  ∧ (form.toRow newId).Expiry_Date = form.expiry
  ∧ (form.toRow newId).Provider_ID = form.provider_id
  ∧ (form.toRow newId).Provider_Type = form.provider_type
  ∧ (form.toRow newId).Location = form.location
  ∧ (form.toRow newId).Food_Type = form.food_type
  ∧ (form.toRow newId).Meal_Type = form.meal_type
  ∧ (addListingSubmit s form newId).store.providers = s.providers
  ∧ (addListingSubmit s form newId).store.receivers = s.receivers
  ∧ (addListingSubmit s form newId).store.claims = s.claims := by
  refine ⟨rfl, rfl, rfl, ?_, rfl, rfl, rfl, rfl, rfl, rfl, rfl, rfl, rfl, rfl,
    rfl, rfl⟩
  simp [addListingSubmit]

/-- C7 witness: the spec's end-to-end example (Bread Loaves, quantity 10,
expiry the day after day 20000) satisfies the constraints, and the submission
issues the single parameterized insert. -/
theorem addListing_one_insert_witness :
    1 ≤ sampleForm.quantity
  ∧ (20000 : Int) ≤ sampleForm.expiry
  ∧ (addListingSubmit sampleStore sampleForm 99).requests
      = [(insertListingSQL, sampleForm.params)] :=
  ⟨by decide, by decide,
    (addListing_one_insert sampleStore sampleForm 99 20000
      (by decide) (by decide)).1⟩

/-- C8: each Listing Browser selector is populated with exactly "All" plus
the distinct values of its own column of the unfiltered listing set: a string
is an option if and only if it is "All" or occurs in that column. -/
theorem viewListings_selector_options (df : List FoodListing) (x : String) :
    (x ∈ cityOptions df ↔ x = "All" ∨ x ∈ df.map (fun f => f.Location))
  ∧ (x ∈ foodTypeOptions df ↔ x = "All" ∨ x ∈ df.map (fun f => f.Food_Type))
  ∧ (x ∈ mealTypeOptions df ↔ x = "All" ∨ x ∈ df.map (fun f => f.Meal_Type)) := by
  unfold cityOptions foodTypeOptions mealTypeOptions
  simp [mem_uniqueSorted]

/-- C9: `fetch_data` closes its connection before returning the result on
the success path, but when the read itself raises the connection opened by
the call is never closed — the read path is as unguarded as the mutating
path. -/
theorem fetch_data_release (df : DataFrame) :
    (fetch_data (some df)).connReleased = true
  ∧ (fetch_data (some df)).result = Except.ok df
  ∧ (fetch_data none).connReleased = false
  ∧ (fetch_data none).result = Except.error DbError.readFailed :=
  ⟨rfl, rfl, rfl, rfl⟩

/-- C10: for a non-empty listing set, every selector option list starts with
"All" and continues with the distinct column values, strictly ascending and
duplicate-free, covering exactly the values present in the column; the lists
are produced by a pure function of the listing set, hence identical across
renders. -/
theorem viewListings_selector_options_ordered (df : List FoodListing)
    (h : df ≠ []) :
    ((cityOptions df).head? = some "All"
      ∧ List.Sorted (fun a b => a < b) (cityOptions df).tail
      ∧ (cityOptions df).tail.Nodup
      ∧ ∀ x, x ∈ (cityOptions df).tail ↔ x ∈ df.map (fun f => f.Location))
  ∧ ((foodTypeOptions df).head? = some "All"
      ∧ List.Sorted (fun a b => a < b) (foodTypeOptions df).tail
      ∧ (foodTypeOptions df).tail.Nodup
      ∧ ∀ x, x ∈ (foodTypeOptions df).tail ↔ x ∈ df.map (fun f => f.Food_Type))
  ∧ ((mealTypeOptions df).head? = some "All"
      ∧ List.Sorted (fun a b => a < b) (mealTypeOptions df).tail
      ∧ (mealTypeOptions df).tail.Nodup
      ∧ ∀ x, x ∈ (mealTypeOptions df).tail ↔ x ∈ df.map (fun f => f.Meal_Type)) :=
  ⟨⟨rfl, uniqueSorted_sorted _, uniqueSorted_nodup _,
      fun x => mem_uniqueSorted _ x⟩,
    ⟨rfl, uniqueSorted_sorted _, uniqueSorted_nodup _,
      fun x => mem_uniqueSorted _ x⟩,
    ⟨rfl, uniqueSorted_sorted _, uniqueSorted_nodup _,
      fun x => mem_uniqueSorted _ x⟩⟩

/-- C10 witness: the sample store's listing set is non-empty and its City
selector options start with "All". -/
theorem viewListings_selector_options_ordered_witness :
    sampleStore.food_listings ≠ []
  ∧ (cityOptions sampleStore.food_listings).head? = some "All" :=
  ⟨by decide,
    (viewListings_selector_options_ordered sampleStore.food_listings
      (by decide)).1.1⟩
